import Mathlib

/-!
Verification of the magi-calculator tax engine.

The definitions below are a shallow embedding of the Python source under
`src/calculators/` (tax_calculator.py, roth_converter.py).  Python `Decimal`
values are modelled as `ℚ` (the source performs exact decimal arithmetic on
the magnitudes involved), `Optional[Decimal]` as `Option ℚ`, and the
per-filing-status dictionaries as total functions on a closed enumeration.
The Python truthiness tests `if prior_year_tax:` and `if not target_magi`
are modelled faithfully: a supplied value of zero takes the same branch as
an absent value.
-/

/-- Tax filing status options (user_inputs.py, `FilingStatus`). -/
inductive FilingStatus where
  | single
  | marriedFilingJointly
  | marriedFilingSeparately
  | headOfHousehold
  | qualifyingWidow
deriving DecidableEq, Repr

namespace TaxCalculator

/-- 2025 federal tax brackets (ordinary income), `TaxCalculator.FEDERAL_BRACKETS`. -/
def FEDERAL_BRACKETS : FilingStatus → List (ℚ × ℚ)
  | .single =>
      [(11925, 10/100), (48475, 12/100), (103350, 22/100), (197300, 24/100),
       (250525, 32/100), (626350, 35/100), (999999999, 37/100)]
  | .marriedFilingJointly =>
      [(23850, 10/100), (96950, 12/100), (206700, 22/100), (394600, 24/100),
       (501050, 32/100), (751600, 35/100), (999999999, 37/100)]
  | .marriedFilingSeparately =>
      [(11925, 10/100), (48475, 12/100), (103350, 22/100), (197300, 24/100),
       (250525, 32/100), (375800, 35/100), (999999999, 37/100)]
  | .headOfHousehold =>
      [(17000, 10/100), (64850, 12/100), (103350, 22/100), (197300, 24/100),
       (250500, 32/100), (626350, 35/100), (999999999, 37/100)]
  | .qualifyingWidow =>
      [(23850, 10/100), (96950, 12/100), (206700, 22/100), (394600, 24/100),
       (501050, 32/100), (751600, 35/100), (999999999, 37/100)]

/-- 2025 long-term capital gains thresholds, `TaxCalculator.LTCG_BRACKETS`. -/
def LTCG_BRACKETS : FilingStatus → List (ℚ × ℚ)
  | .single => [(48350, 0), (533400, 15/100), (999999999, 20/100)]
  | .marriedFilingJointly => [(96700, 0), (600050, 15/100), (999999999, 20/100)]
  | .marriedFilingSeparately => [(48350, 0), (300025, 15/100), (999999999, 20/100)]
  | .headOfHousehold => [(64750, 0), (566700, 15/100), (999999999, 20/100)]
  | .qualifyingWidow => [(96700, 0), (600050, 15/100), (999999999, 20/100)]

/-- 2025 standard deductions, `TaxCalculator.STANDARD_DEDUCTIONS`. -/
def STANDARD_DEDUCTIONS : FilingStatus → ℚ
  | .single => 15000
  | .marriedFilingJointly => 30000
  | .marriedFilingSeparately => 15000
  | .headOfHousehold => 22500
  | .qualifyingWidow => 30000

/-- North Carolina flat tax rate (4.75%), `TaxCalculator.NC_TAX_RATE`. -/
def NC_TAX_RATE : ℚ := 475/10000

/-- North Carolina standard deductions, `TaxCalculator.NC_STANDARD_DEDUCTIONS`. -/
def NC_STANDARD_DEDUCTIONS : FilingStatus → ℚ
  | .single => 12750
  | .marriedFilingJointly => 25500
  | .marriedFilingSeparately => 12750
  | .headOfHousehold => 19125
  | .qualifyingWidow => 25500

/-- The bracket-walking loop inside `calculate_federal_ordinary_tax`.
State: remaining bracket list, `previous_threshold`, accumulated `tax`,
current `marginal_rate`; the taxable income is fixed.  Returns
`(tax, marginal_rate)`. -/
def fedBracketLoop (income : ℚ) : List (ℚ × ℚ) → ℚ → ℚ → ℚ → ℚ × ℚ
  | [], _, tax, mrate => (tax, mrate)
  | (threshold, rate) :: rest, prev, tax, mrate =>
    if income ≤ prev then (tax, mrate)
    else
      let tax' := tax + (min income threshold - prev) * rate
      if income ≤ threshold then (tax', rate)
      else fedBracketLoop income rest threshold tax' rate

/-- `TaxCalculator.calculate_federal_ordinary_tax`: progressive-bracket tax on
ordinary income; returns `(tax_amount, marginal_rate)`. -/
def calculate_federal_ordinary_tax (taxable_ordinary_income : ℚ)
    (filing_status : FilingStatus) : ℚ × ℚ :=
  if taxable_ordinary_income ≤ 0 then (0, 0)
  else fedBracketLoop taxable_ordinary_income (FEDERAL_BRACKETS filing_status) 0 0 0

/-- The stacking loop inside `calculate_federal_ltcg_tax`.
State: remaining bracket list, `previous_threshold`, `income_position`,
`remaining_ltcg`, accumulated `tax`. -/
def ltcgBracketLoop : List (ℚ × ℚ) → ℚ → ℚ → ℚ → ℚ → ℚ
  | [], _, _, _, tax => tax
  | (threshold, rate) :: rest, prev, pos, rem, tax =>
    if rem ≤ 0 then tax
    else
      let bracket_start := max pos prev
      if threshold ≤ bracket_start then ltcgBracketLoop rest threshold pos rem tax
      else
        let amount := min rem (threshold - bracket_start)
        ltcgBracketLoop rest threshold (pos + amount) (rem - amount) (tax + amount * rate)

/-- `TaxCalculator.calculate_federal_ltcg_tax`: preferential income stacked on
top of ordinary income within the LTCG bracket table. -/
def calculate_federal_ltcg_tax (preferential_income ordinary_income : ℚ)
    (filing_status : FilingStatus) : ℚ :=
  if preferential_income ≤ 0 then 0
  else ltcgBracketLoop (LTCG_BRACKETS filing_status) 0 ordinary_income preferential_income 0

/-- `TaxCalculator.calculate_nc_state_tax`: flat-rate state tax; returns
`(taxable_income, tax_amount)`. -/
def calculate_nc_state_tax (total_income : ℚ) (filing_status : FilingStatus) : ℚ × ℚ :=
  let taxable_income := max 0 (total_income - NC_STANDARD_DEDUCTIONS filing_status)
  (taxable_income, taxable_income * NC_TAX_RATE)

/-- `QuarterlyPaymentInfo` dataclass (tax_calculator.py).  The numeric
formatting interpolated into `reason` in the source is presentation only and
is not reproduced. -/
structure QuarterlyPaymentInfo where
  required : Bool
  estimated_payment : ℚ
  total_underpayment : ℚ
  reason : String
  safe_harbor_amount : ℚ
deriving DecidableEq, Repr

/-- `TaxCalculator.calculate_quarterly_payment_requirement`.  The Python test
`if prior_year_tax:` is truthiness: it takes the else branch both when
`prior_year_tax` is `None` and when it is a supplied zero; `effectivePrior`
models exactly that. -/
def calculate_quarterly_payment_requirement (total_federal_tax federal_withholding : ℚ)
    (prior_year_tax : Option ℚ) (_filing_status : FilingStatus) : QuarterlyPaymentInfo :=
  let underpayment := total_federal_tax - federal_withholding
  if underpayment < 1000 then
    { required := false
      estimated_payment := 0
      total_underpayment := underpayment
      reason := "Estimated underpayment is less than $1,000"
      safe_harbor_amount := 0 }
  else
    let current_year_safe_harbor := total_federal_tax * (90/100)
    -- Python truthiness of `if prior_year_tax:`
    let effectivePrior : Option ℚ :=
      match prior_year_tax with
      | none => none
      | some p => if p = 0 then none else some p
    match effectivePrior with
    | some prior_year_safe_harbor =>
      let safe_harbor_amount := min current_year_safe_harbor prior_year_safe_harbor
      let reason :=
        if prior_year_safe_harbor ≤ federal_withholding then
          "Withholding meets prior year safe harbor"
        else
          "Underpayment exceeds $1,000 and withholding is less than safe harbor amount"
      { required := decide (federal_withholding < safe_harbor_amount)
        estimated_payment := max 0 (safe_harbor_amount - federal_withholding) / 4
        total_underpayment := underpayment
        reason := reason
        safe_harbor_amount := safe_harbor_amount }
    | none =>
      let safe_harbor_amount := current_year_safe_harbor
      let reason :=
        if current_year_safe_harbor ≤ federal_withholding then
          "Withholding meets 90% of current year tax"
        else
          "Underpayment exceeds $1,000 and withholding is less than 90% of current year tax"
      { required := decide (federal_withholding < safe_harbor_amount)
        estimated_payment := max 0 (safe_harbor_amount - federal_withholding) / 4
        total_underpayment := underpayment
        reason := reason
        safe_harbor_amount := safe_harbor_amount }

/-- `TaxResult` dataclass (tax_calculator.py). -/
structure TaxResult where
  ordinary_income : ℚ
  preferential_income : ℚ
  total_income : ℚ
  standard_deduction : ℚ
  taxable_income : ℚ
  federal_ordinary_tax : ℚ
  federal_preferential_tax : ℚ
  total_federal_tax : ℚ
  state_taxable_income : ℚ
  state_tax : ℚ
  total_tax : ℚ
  after_tax_income : ℚ
  effective_tax_rate : ℚ
  federal_marginal_rate : ℚ
  quarterly_payment_info : Option QuarterlyPaymentInfo
deriving DecidableEq, Repr

/-- The deduction-splitting block of `calculate_taxes` (lines 399-414):
deduction reduces ordinary income first, then preferential income; returns
`(taxable_ordinary, taxable_preferential)`. -/
def taxableParts (ordinary_income preferential_income deduction_amount : ℚ) : ℚ × ℚ :=
  let total_taxable := max 0 (ordinary_income + preferential_income - deduction_amount)
  if total_taxable = 0 then (0, 0)
  else
    (max 0 (ordinary_income - deduction_amount),
     if deduction_amount < ordinary_income then preferential_income
     else max 0 (preferential_income - (deduction_amount - ordinary_income)))

/-- `TaxCalculator.calculate_taxes`: complete federal and state liability. -/
def calculate_taxes (short_term_gains long_term_gains dividend_income interest_income
    additional_income : ℚ) (filing_status : FilingStatus)
    (deduction : Option ℚ) (federal_withholding : ℚ)
    (prior_year_tax : Option ℚ) : TaxResult :=
  let ordinary_income := short_term_gains + interest_income + additional_income
  let preferential_income := long_term_gains + dividend_income
  let total_income := ordinary_income + preferential_income
  let deduction_amount :=
    match deduction with
    | none => STANDARD_DEDUCTIONS filing_status
    | some d => d
  let total_taxable := max 0 (total_income - deduction_amount)
  let parts := taxableParts ordinary_income preferential_income deduction_amount
  let taxable_ordinary := parts.1
  let taxable_preferential := parts.2
  let fed := calculate_federal_ordinary_tax taxable_ordinary filing_status
  let federal_ordinary_tax := fed.1
  let marginal_rate := fed.2
  let federal_preferential_tax :=
    calculate_federal_ltcg_tax taxable_preferential taxable_ordinary filing_status
  let total_federal_tax := federal_ordinary_tax + federal_preferential_tax
  let st := calculate_nc_state_tax total_income filing_status
  let total_tax := total_federal_tax + st.2
  let after_tax_income := total_income - total_tax
  let effective_rate := if 0 < total_income then total_tax / total_income * 100 else 0
  let quarterly_payment_info := calculate_quarterly_payment_requirement
    total_federal_tax federal_withholding prior_year_tax filing_status
  { ordinary_income := ordinary_income
    preferential_income := preferential_income
    total_income := total_income
    standard_deduction := deduction_amount
    taxable_income := total_taxable
    federal_ordinary_tax := federal_ordinary_tax
    federal_preferential_tax := federal_preferential_tax
    total_federal_tax := total_federal_tax
    state_taxable_income := st.1
    state_tax := st.2
    total_tax := total_tax
    after_tax_income := after_tax_income
    effective_tax_rate := effective_rate
    federal_marginal_rate := marginal_rate * 100
    quarterly_payment_info := some quarterly_payment_info }

end TaxCalculator

namespace RothConverter

open TaxCalculator

/-- `RothConversionSuggestion` dataclass (roth_converter.py). -/
structure RothConversionSuggestion where
  has_opportunity : Bool
  current_magi : ℚ
  target_magi : ℚ
  suggested_conversion : ℚ
  conversion_tax : ℚ
  current_total_tax : ℚ
  new_total_tax : ℚ
  marginal_rate : ℚ
  current_federal_tax : ℚ
  new_federal_tax : ℚ
  current_state_tax : ℚ
  new_state_tax : ℚ
deriving DecidableEq, Repr

/-- The marginal-rate computation of `analyze_roth_opportunity`
(roth_converter.py lines 110-114): guarded division by the conversion. -/
def rothMarginalRate (conversion_tax suggested_conversion : ℚ) : ℚ :=
  if 0 < suggested_conversion then conversion_tax / suggested_conversion * 100 else 0

/-- `RothConverter.analyze_roth_opportunity`.  The Python guard
`if not target_magi or target_magi <= current_magi: return None` is
truthiness: a supplied target of zero takes the `None` branch exactly like an
absent target. -/
def analyze_roth_opportunity (current_magi : ℚ) (target_magi : Option ℚ)
    (short_term_gains long_term_gains dividend_income interest_income
     additional_income : ℚ) (filing_status : FilingStatus)
    (current_tax_result : TaxResult) (deduction : Option ℚ) :
    Option RothConversionSuggestion :=
  match target_magi with
  | none => none
  | some t =>
    if t = 0 ∨ t ≤ current_magi then none
    else
      let suggested_conversion := t - current_magi
      let new_additional := additional_income + suggested_conversion
      let new_tax_result := calculate_taxes short_term_gains long_term_gains
        dividend_income interest_income new_additional filing_status deduction 0 none
      let conversion_tax := new_tax_result.total_tax - current_tax_result.total_tax
      let marginal_rate := rothMarginalRate conversion_tax suggested_conversion
      some
        { has_opportunity := true
          current_magi := current_magi
          target_magi := t
          suggested_conversion := suggested_conversion
          conversion_tax := conversion_tax
          current_total_tax := current_tax_result.total_tax
          new_total_tax := new_tax_result.total_tax
          marginal_rate := marginal_rate
          current_federal_tax := current_tax_result.total_federal_tax
          new_federal_tax := new_tax_result.total_federal_tax
          current_state_tax := current_tax_result.state_tax
          new_state_tax := new_tax_result.state_tax }

end RothConverter

open TaxCalculator RothConverter

/-- C1: the quarterly payment evaluator at the failing input
`total_federal_tax = 10000`, `federal_withholding = 0`,
`prior_year_tax = some 0` (a supplied zero).  The claim requires
`safe_harbor_amount = min (90% of 10000) 0 = 0`, but the code's truthiness
test `if prior_year_tax:` treats the supplied zero as absent and returns
`9000 = 90% of 10000` instead. -/
theorem claim_C1_supplied_zero_prior_treated_as_absent :
    (calculate_quarterly_payment_requirement 10000 0 (some 0) .single).safe_harbor_amount
        = 9000 ∧
    (calculate_quarterly_payment_requirement 10000 0 (some 0) .single).safe_harbor_amount
        ≠ min (10000 * (90/100)) 0 := by
  constructor
  · norm_num [calculate_quarterly_payment_requirement]
  · norm_num [calculate_quarterly_payment_requirement]

/-- C2: the Roth solver at the failing input `current_magi = -1000`,
`target_magi = some 0`.  The target is supplied and strictly greater than the
current MAGI, so the claim requires a populated suggestion, but the code's
truthiness test `if not target_magi` treats the supplied zero target as unset
and returns no suggestion. -/
theorem claim_C2_supplied_zero_target_treated_as_unset :
    analyze_roth_opportunity (-1000) (some 0) 0 0 0 0 0 .single
        (calculate_taxes 0 0 0 0 0 .single none 0 none) none = none ∧
    ((-1000 : ℚ) < 0) := by
  constructor
  · norm_num [analyze_roth_opportunity]
  · norm_num

/-- C4: deduction application order in the tax engine.  For every input
(negative short-term gains included): if total income is at most the
deduction both taxable buckets are zero; otherwise taxable ordinary income is
`max 0 (ordinary - deduction)` and taxable preferential income is the full
preferential amount when ordinary income exceeds the deduction, else the
preferential amount less the leftover deduction, floored at zero; and the
engine's total taxable income is floored at zero independently. -/
theorem claim_C4_deduction_application_order
    (stg ltg div intr add d : ℚ) (fs : FilingStatus) :
    (stg + intr + add + (ltg + div) ≤ d →
        taxableParts (stg + intr + add) (ltg + div) d = (0, 0)) ∧
    (d < stg + intr + add + (ltg + div) →
        (taxableParts (stg + intr + add) (ltg + div) d).1
            = max 0 (stg + intr + add - d) ∧
        (d < stg + intr + add →
          (taxableParts (stg + intr + add) (ltg + div) d).2 = ltg + div) ∧
        (stg + intr + add ≤ d →
          (taxableParts (stg + intr + add) (ltg + div) d).2
              = max 0 (ltg + div - (d - (stg + intr + add))))) ∧
    (calculate_taxes stg ltg div intr add fs (some d) 0 none).taxable_income
        = max 0 (stg + intr + add + (ltg + div) - d) := by
  refine ⟨?_, ?_, ?_⟩
  · intro h
    simp only [taxableParts]
    rw [if_pos (by rw [max_eq_left] <;> linarith)]
  · intro h
    have hne : max 0 (stg + intr + add + (ltg + div) - d) ≠ 0 := by
      have : 0 < stg + intr + add + (ltg + div) - d := by linarith
      rw [max_eq_right this.le]
      exact this.ne'
    refine ⟨?_, ?_, ?_⟩
    · simp only [taxableParts]
      rw [if_neg hne]
    · intro h2
      simp only [taxableParts]
      rw [if_neg hne]
      simp only []
      rw [if_pos h2]
    · intro h2
      simp only [taxableParts]
      rw [if_neg hne]
      simp only []
      rw [if_neg (by linarith)]
  · simp only [calculate_taxes]

/-- C4 witness: concrete instance with negative short-term gains
(`-5000` short-term, `30000` long-term, deduction `15000`): the deduction
remainder `20000` reduces the preferential bucket to `10000`, and the
ordinary bucket is floored at zero. -/
theorem claim_C4_deduction_application_order_witness :
    (taxableParts (-5000 + 0 + 0) (30000 + 0) 15000).1
        = max 0 (-5000 + 0 + 0 - 15000) ∧
    (taxableParts (-5000 + 0 + 0) (30000 + 0) 15000).2
        = max 0 (30000 + 0 - (15000 - (-5000 + 0 + 0))) := by
  have h := claim_C4_deduction_application_order (-5000) 30000 0 0 0 15000 .single
  have h2 := h.2.1 (by norm_num)
  exact ⟨h2.1, h2.2.2 (by norm_num)⟩

/-- C6: for a Single filer with ordinary income 60000 (as additional income),
no preferential income, and the default deduction, the engine uses the 15000
standard deduction, taxable ordinary income is 45000, and federal ordinary
tax is exactly 11925×0.10 + (45000−11925)×0.12 = 5161.50. -/
theorem claim_C6_single_60000_scenario :
    (calculate_taxes 0 0 0 0 60000 .single none 0 none).standard_deduction = 15000 ∧
    (taxableParts (0 + 0 + 60000) (0 + 0) 15000).1 = 45000 ∧
    (calculate_taxes 0 0 0 0 60000 .single none 0 none).federal_ordinary_tax
        = 11925 * (10/100) + (45000 - 11925) * (12/100) ∧
    (calculate_taxes 0 0 0 0 60000 .single none 0 none).federal_ordinary_tax
        = 10323/2 := by
  refine ⟨by rfl, by norm_num [taxableParts], ?_, ?_⟩ <;>
    norm_num [calculate_taxes, taxableParts, calculate_federal_ordinary_tax,
      fedBracketLoop, FEDERAL_BRACKETS, STANDARD_DEDUCTIONS]

/-- C7: for every input, the state tax equals
`max 0 (total_income - state_standard_deduction) * flat_rate`, where the base
is total income before the federal deduction: the result does not depend on
the deduction argument at all. -/
theorem claim_C7_state_tax_base_is_total_income
    (stg ltg div intr add w : ℚ) (fs : FilingStatus) (d pyt : Option ℚ) :
    (calculate_taxes stg ltg div intr add fs d w pyt).state_tax
        = max 0 (stg + intr + add + (ltg + div)
            - NC_STANDARD_DEDUCTIONS fs) * NC_TAX_RATE := by
  simp only [calculate_taxes, calculate_nc_state_tax]

/-- C9: division-by-zero guards.  When total income is zero the engine
returns an effective tax rate of zero (the guard, not a division fault), and
the Roth solver's marginal-rate computation returns zero when the suggested
conversion is zero. -/
theorem claim_C9_division_guards
    (stg ltg div intr add w : ℚ) (fs : FilingStatus) (d pyt : Option ℚ) :
    (stg + intr + add + (ltg + div) = 0 →
        (calculate_taxes stg ltg div intr add fs d w pyt).effective_tax_rate = 0) ∧
    (∀ conversion_tax : ℚ, rothMarginalRate conversion_tax 0 = 0) := by
  constructor
  · intro h
    simp only [calculate_taxes]
    rw [if_neg (by rw [h]; exact lt_irrefl 0)]
  · intro ct
    simp [rothMarginalRate]

/-- C9 witness: the all-zero-income instance has effective tax rate zero, and
the Roth marginal rate at conversion zero is zero. -/
theorem claim_C9_division_guards_witness :
    (calculate_taxes 0 0 0 0 0 .single none 0 none).effective_tax_rate = 0 ∧
    rothMarginalRate 37 0 = 0 := by
  have h := claim_C9_division_guards 0 0 0 0 0 0 .single none none
  exact ⟨h.1 (by norm_num), h.2 37⟩

/-- C10: invariant of every `QuarterlyPaymentInfo` the evaluator produces:
`required` is true exactly when `estimated_payment` is strictly positive; in
particular whenever payments are not required the estimated payment is 0. -/
theorem claim_C10_required_iff_positive_payment
    (tft w : ℚ) (pyt : Option ℚ) (fs : FilingStatus) :
    ((calculate_quarterly_payment_requirement tft w pyt fs).required = true
      ↔ 0 < (calculate_quarterly_payment_requirement tft w pyt fs).estimated_payment) := by
  have aux : ∀ v sh : ℚ, ((decide (v < sh)) = true ↔ 0 < max 0 (sh - v) / 4) := by
    intro v sh
    simp only [decide_eq_true_eq]
    constructor
    · intro h
      have h4 : (0:ℚ) < max 0 (sh - v) := by
        rw [max_eq_right (by linarith)]
        linarith
      linarith
    · intro h
      by_contra h3
      push_neg at h3
      rw [max_eq_left (by linarith)] at h
      linarith
  rcases pyt with _ | p
  · simp only [calculate_quarterly_payment_requirement]
    split_ifs
    · simp
    · exact aux w _
    · exact aux w _
  · simp only [calculate_quarterly_payment_requirement]
    split_ifs
    all_goals first
      | simp
      | exact aux w _

namespace TaxCalculator

/-! ### Closed forms for the bracket loops

`bracketCumulative bs prev x` is the cumulative progressive tax charged on
the income range `(prev, x]` by the bracket list `bs`; it is the closed form
of both bracket-walking loops.  `stackCumulative bs prev O s` is the closed
form of the stacking loop: the tax charged on the slice `(max O prev, s]`
of each bracket. -/

def bracketCumulative : List (ℚ × ℚ) → ℚ → ℚ → ℚ
  | [], _, _ => 0
  | (threshold, rate) :: rest, prev, inc =>
      rate * max 0 (min inc threshold - prev) + bracketCumulative rest threshold inc

def stackCumulative : List (ℚ × ℚ) → ℚ → ℚ → ℚ → ℚ
  | [], _, _, _ => 0
  | (threshold, rate) :: rest, prev, pos, s =>
      rate * max 0 (min s threshold - max pos prev) + stackCumulative rest threshold pos s

lemma bracketCumulative_zero_of_le {bs : List (ℚ × ℚ)} {prev inc : ℚ}
    (hch : List.Chain (· < ·) prev (bs.map Prod.fst)) (h : inc ≤ prev) :
    bracketCumulative bs prev inc = 0 := by
  induction bs generalizing prev with
  | nil => rfl
  | cons hd rest ih =>
    obtain ⟨t, r⟩ := hd
    simp only [List.map_cons, List.chain_cons] at hch
    have h1 : max 0 (min inc t - prev) = 0 := by
      have : min inc t ≤ prev := le_trans (min_le_left _ _) h
      rw [max_eq_left (by linarith)]
    simp only [bracketCumulative, h1, mul_zero, zero_add]
    exact ih hch.2 (le_trans h hch.1.le)

lemma stackCumulative_zero_of_le {bs : List (ℚ × ℚ)} {prev pos s : ℚ}
    (h : s ≤ pos) : stackCumulative bs prev pos s = 0 := by
  induction bs generalizing prev with
  | nil => rfl
  | cons hd rest ih =>
    obtain ⟨t, r⟩ := hd
    have h1 : max 0 (min s t - max pos prev) = 0 := by
      have : min s t ≤ max pos prev := le_trans (min_le_left _ _)
        (le_trans h (le_max_left _ _))
      rw [max_eq_left (by linarith)]
    simp only [stackCumulative, h1, mul_zero, zero_add]
    exact ih

lemma stackCumulative_zero_of_ge {bs : List (ℚ × ℚ)} {prev pos s : ℚ}
    (hch : List.Chain (· < ·) prev (bs.map Prod.fst)) (h : s ≤ prev) :
    stackCumulative bs prev pos s = 0 := by
  induction bs generalizing prev with
  | nil => rfl
  | cons hd rest ih =>
    obtain ⟨t, r⟩ := hd
    simp only [List.map_cons, List.chain_cons] at hch
    have h1 : max 0 (min s t - max pos prev) = 0 := by
      have : min s t ≤ max pos prev := le_trans (min_le_left _ _)
        (le_trans h (le_max_right _ _))
      rw [max_eq_left (by linarith)]
    simp only [stackCumulative, h1, mul_zero, zero_add]
    exact ih hch.2 (le_trans h hch.1.le)

/-- The federal ordinary-tax loop computes the cumulative bracket tax. -/
lemma fedBracketLoop_eq (inc : ℚ) (bs : List (ℚ × ℚ)) (prev tax mrate : ℚ)
    (hch : List.Chain (· < ·) prev (bs.map Prod.fst)) :
    (fedBracketLoop inc bs prev tax mrate).1 = tax + bracketCumulative bs prev inc := by
  induction bs generalizing prev tax mrate with
  | nil => simp [fedBracketLoop, bracketCumulative]
  | cons hd rest ih =>
    obtain ⟨t, r⟩ := hd
    simp only [List.map_cons, List.chain_cons] at hch
    obtain ⟨hpt, hchr⟩ := hch
    simp only [fedBracketLoop, bracketCumulative]
    split_ifs with h1 h2
    · -- income at or below the previous threshold: nothing more is charged
      have e1 : max 0 (min inc t - prev) = 0 := by
        rw [max_eq_left]
        have : min inc t ≤ prev := le_trans (min_le_left _ _) h1
        linarith
      rw [e1, bracketCumulative_zero_of_le hchr (le_trans h1 hpt.le)]
      ring
    · -- income inside this bracket: the loop stops here
      have e1 : max 0 (min inc t - prev) = min inc t - prev := by
        rw [max_eq_right]
        push_neg at h1
        have : prev < min inc t := lt_min h1 (lt_of_lt_of_le h1 h2)
        linarith
      rw [e1, bracketCumulative_zero_of_le hchr h2]
      ring
    · -- income beyond this bracket: recurse
      push_neg at h1 h2
      rw [ih t (tax + (min inc t - prev) * r) r hchr]
      have e1 : max 0 (min inc t - prev) = min inc t - prev := by
        rw [max_eq_right]
        have : prev < min inc t := lt_min h1 hpt
        linarith
      rw [e1]
      ring

/-- The stacking loop computes `stackCumulative`.  The loop is entered with
`income_position = O + c` and `remaining = P - c` where
`c = max 0 (min (O + P) prev - O)` is the amount already consumed by the
brackets before `prev`; at `prev = 0` this is the initial state `(O, P)`. -/
lemma ltcgBracketLoop_eq (O P : ℚ) (hO : 0 ≤ O) (hP : 0 < P) :
    ∀ (bs : List (ℚ × ℚ)) (prev tax : ℚ),
    List.Chain (· < ·) prev (bs.map Prod.fst) → 0 ≤ prev →
    ltcgBracketLoop bs prev (O + max 0 (min (O + P) prev - O))
        (P - max 0 (min (O + P) prev - O)) tax
      = tax + stackCumulative bs prev O (O + P) := by
  intro bs
  induction bs with
  | nil => intro prev tax _ _; simp [ltcgBracketLoop, stackCumulative]
  | cons hd rest ih =>
    intro prev tax hch hprev
    obtain ⟨t, r⟩ := hd
    simp only [List.map_cons, List.chain_cons] at hch
    obtain ⟨hpt, hchr⟩ := hch
    have ht0 : 0 ≤ t := le_trans hprev hpt.le
    simp only [ltcgBracketLoop, stackCumulative]
    by_cases hrem : P - max 0 (min (O + P) prev - O) ≤ 0
    · rw [if_pos hrem]
      -- everything was consumed before `prev`, so `O + P ≤ prev`
      have hw : 0 < min (O + P) prev - O := by
        by_contra h'
        push_neg at h'
        rw [max_eq_left (by linarith)] at hrem
        linarith
      have hOP : O + P ≤ prev := by
        rw [max_eq_right hw.le] at hrem
        have h1 := min_le_right (O + P) prev
        rcases le_or_lt (O + P) prev with h | h
        · exact h
        · rw [min_eq_right h.le] at hrem; linarith
      have e1 : max 0 (min (O + P) t - max O prev) = 0 := by
        rw [max_eq_left]
        have h1 : min (O + P) t ≤ O + P := min_le_left _ _
        have h2 : prev ≤ max O prev := le_max_right _ _
        linarith
      rw [e1, stackCumulative_zero_of_ge hchr (le_trans hOP hpt.le)]
      ring
    · rw [if_neg hrem]
      push_neg at hrem
      have hprevOP : prev < O + P := by
        by_contra h'
        push_neg at h'
        rw [min_eq_left h'] at hrem
        rw [max_eq_right (by linarith)] at hrem
        linarith
      have hcform : max 0 (min (O + P) prev - O) = max 0 (prev - O) := by
        rw [min_eq_right hprevOP.le]
      have hpos : O + max 0 (min (O + P) prev - O) = max O prev := by
        rw [hcform]
        rcases le_total prev O with h | h
        · rw [max_eq_left (by linarith), max_eq_left h]; ring
        · rw [max_eq_right (by linarith), max_eq_right h]; ring
      have hbs : max (O + max 0 (min (O + P) prev - O)) prev = max O prev := by
        rw [hpos, max_eq_left (le_max_right O prev)]
      rw [hbs]
      have hmOP : max O prev < O + P := by
        have := hrem
        rw [hcform] at this
        rcases le_total prev O with h | h
        · rw [max_eq_left (by linarith)] at this
          rw [max_eq_left h]
          linarith
        · rw [max_eq_right (by linarith)] at this
          rw [max_eq_right h]
          linarith
      by_cases hts : t ≤ max O prev
      · rw [if_pos hts]
        -- `prev < t ≤ max O prev` forces `t ≤ O`
        have hOt : t ≤ O := by
          rcases max_cases O prev with ⟨he, _⟩ | ⟨he, _⟩
          · rw [he] at hts; exact hts
          · rw [he] at hts; linarith
        have hc0 : max 0 (min (O + P) prev - O) = 0 := by
          rw [hcform, max_eq_left (by linarith)]
        have hc' : max 0 (min (O + P) t - O) = 0 := by
          rw [min_eq_right (by linarith), max_eq_left (by linarith)]
        have e1 : max 0 (min (O + P) t - max O prev) = 0 := by
          rw [min_eq_right (by linarith), max_eq_left (by linarith [le_max_left O prev])]
        rw [hc0, e1]
        have ihx := ih t tax hchr ht0
        rw [hc'] at ihx
        simpa using ihx
      · rw [if_neg hts]
        push_neg at hts
        have hPc : P - max 0 (min (O + P) prev - O) = O + P - max O prev := by
          have := hpos; linarith
        have hamt : min (P - max 0 (min (O + P) prev - O)) (t - max O prev)
            = min (O + P) t - max O prev := by
          rw [hPc, ← min_sub_sub_right]
        rw [hamt]
        have hheadpos : max O prev < min (O + P) t := lt_min hmOP hts
        have e1 : max 0 (min (O + P) t - max O prev) = min (O + P) t - max O prev :=
          max_eq_right (by linarith)
        have hc'' : max 0 (min (O + P) t - O) = min (O + P) t - O :=
          max_eq_right (by linarith [le_max_left O prev])
        have ihx := ih t (tax + (min (O + P) t - max O prev) * r) hchr ht0
        rw [hc''] at ihx
        have harg1 : O + max 0 (min (O + P) prev - O) + (min (O + P) t - max O prev)
            = O + (min (O + P) t - O) := by
          have := hpos; linarith
        have harg2 : P - max 0 (min (O + P) prev - O) - (min (O + P) t - max O prev)
            = P - (min (O + P) t - O) := by
          have := hpos; linarith
        rw [harg1, harg2, ihx, e1]
        ring

lemma fed_chain (fs : FilingStatus) :
    List.Chain (· < ·) 0 ((FEDERAL_BRACKETS fs).map Prod.fst) := by
  cases fs <;> simp [FEDERAL_BRACKETS, List.chain_cons] <;> norm_num

lemma ltcg_chain (fs : FilingStatus) :
    List.Chain (· < ·) 0 ((LTCG_BRACKETS fs).map Prod.fst) := by
  cases fs <;> simp [LTCG_BRACKETS, List.chain_cons] <;> norm_num

lemma fed_rates_nonneg (fs : FilingStatus) :
    ∀ br ∈ FEDERAL_BRACKETS fs, 0 ≤ br.2 := by
  cases fs <;> intro br hbr <;> simp [FEDERAL_BRACKETS] at hbr <;>
    rcases hbr with h | h | h | h | h | h | h <;> rw [h] <;> norm_num

lemma ltcg_rates_nonneg (fs : FilingStatus) :
    ∀ br ∈ LTCG_BRACKETS fs, 0 ≤ br.2 := by
  cases fs <;> intro br hbr <;> simp [LTCG_BRACKETS] at hbr <;>
    rcases hbr with h | h | h <;> rw [h] <;> norm_num

/-- The federal ordinary tax equals the cumulative bracket tax from 0. -/
lemma calculate_federal_ordinary_tax_eq (x : ℚ) (fs : FilingStatus) (hx : 0 ≤ x) :
    (calculate_federal_ordinary_tax x fs).1
      = bracketCumulative (FEDERAL_BRACKETS fs) 0 x := by
  unfold calculate_federal_ordinary_tax
  split_ifs with h
  · have hx0 : x = 0 := le_antisymm h hx
    rw [hx0, bracketCumulative_zero_of_le (fed_chain fs) le_rfl]
  · rw [fedBracketLoop_eq x _ 0 0 0 (fed_chain fs)]
    ring

/-- The stacking cumulative is the difference of two plain cumulatives:
the tax on `(prev, s]` minus the tax on `(prev, pos]`. -/
lemma stackCumulative_eq_diff (bs : List (ℚ × ℚ)) (prev pos s : ℚ)
    (hch : List.Chain (· < ·) prev (bs.map Prod.fst))
    (hprev : 0 ≤ prev) (hpos : 0 ≤ pos) (hps : pos ≤ s) :
    stackCumulative bs prev pos s
      = bracketCumulative bs prev s - bracketCumulative bs prev pos := by
  induction bs generalizing prev with
  | nil => simp [stackCumulative, bracketCumulative]
  | cons hd rest ih =>
    obtain ⟨t, r⟩ := hd
    simp only [List.map_cons, List.chain_cons] at hch
    obtain ⟨hpt, hchr⟩ := hch
    simp only [stackCumulative, bracketCumulative]
    have hterm : max 0 (min s t - max pos prev)
        = max 0 (min s t - prev) - max 0 (min pos t - prev) := by
      simp only [min_def, max_def]
      split_ifs <;> linarith
    rw [hterm, ih t hchr (le_trans hprev hpt.le)]
    ring

/-- The preferential ("stacking") tax equals a difference of cumulative
bracket taxes: the cumulative at `O + P` minus the cumulative at `O`. -/
lemma calculate_federal_ltcg_tax_eq (P O : ℚ) (fs : FilingStatus)
    (hO : 0 ≤ O) (hP : 0 ≤ P) :
    calculate_federal_ltcg_tax P O fs
      = bracketCumulative (LTCG_BRACKETS fs) 0 (O + P)
        - bracketCumulative (LTCG_BRACKETS fs) 0 O := by
  unfold calculate_federal_ltcg_tax
  split_ifs with h
  · have hP0 : P = 0 := le_antisymm h hP
    rw [hP0, add_zero, sub_self]
  · push_neg at h
    have h0 := ltcgBracketLoop_eq O P hO h (LTCG_BRACKETS fs) 0 0 (ltcg_chain fs) le_rfl
    have hc : max 0 (min (O + P) 0 - O) = 0 := by
      rw [max_eq_left]
      have : min (O + P) 0 ≤ 0 := min_le_right _ _
      linarith
    rw [hc] at h0
    simp only [add_zero, sub_zero, zero_add] at h0
    rw [h0]
    exact stackCumulative_eq_diff _ 0 O (O + P) (ltcg_chain fs) le_rfl hO (by linarith)

/-- Cumulative bracket tax is monotone in the income when all rates are
non-negative. -/
lemma bracketCumulative_mono (bs : List (ℚ × ℚ)) (prev x y : ℚ)
    (hr : ∀ br ∈ bs, 0 ≤ br.2) (hxy : x ≤ y) :
    bracketCumulative bs prev x ≤ bracketCumulative bs prev y := by
  induction bs generalizing prev with
  | nil => simp [bracketCumulative]
  | cons hd rest ih =>
    obtain ⟨t, r⟩ := hd
    simp only [bracketCumulative]
    have h1 : max 0 (min x t - prev) ≤ max 0 (min y t - prev) := by
      apply max_le_max le_rfl
      have : min x t ≤ min y t := min_le_min hxy le_rfl
      linarith
    have hrt : 0 ≤ r := hr (t, r) (List.mem_cons_self _ _)
    have h2 := ih t (fun br hbr => hr br (List.mem_cons_of_mem _ hbr))
    have h3 := mul_le_mul_of_nonneg_left h1 hrt
    linarith

/-- `lastThreshold prev bs` is the threshold of the last bracket of `bs`, or
`prev` when `bs` is empty: the lower bound of the bracket that follows. -/
def lastThreshold (prev : ℚ) : List (ℚ × ℚ) → ℚ
  | [] => prev
  | (t, _) :: rest => lastThreshold t rest

lemma lastThreshold_ge (a : ℚ) (pre rest : List (ℚ × ℚ))
    (hch : List.Chain (· < ·) a ((pre ++ rest).map Prod.fst)) :
    a ≤ lastThreshold a pre := by
  induction pre generalizing a with
  | nil => exact le_rfl
  | cons hd pre ih =>
    obtain ⟨t, r⟩ := hd
    simp only [List.cons_append, List.map_cons, List.chain_cons] at hch
    exact le_trans hch.1.le (ih t hch.2)

/-- Between two consecutive thresholds the cumulative bracket tax is linear
with slope equal to that bracket's rate. -/
lemma bracketCumulative_linear (pre : List (ℚ × ℚ)) (t r : ℚ) (suf : List (ℚ × ℚ))
    (prev x y : ℚ)
    (hch : List.Chain (· < ·) prev ((pre ++ (t, r) :: suf).map Prod.fst))
    (hx : lastThreshold prev pre ≤ x) (hxy : x ≤ y) (hy : y ≤ t) :
    bracketCumulative (pre ++ (t, r) :: suf) prev y
      - bracketCumulative (pre ++ (t, r) :: suf) prev x = r * (y - x) := by
  induction pre generalizing prev with
  | nil =>
    simp only [lastThreshold] at hx
    simp only [List.nil_append] at hch ⊢
    simp only [List.map_cons, List.chain_cons] at hch
    obtain ⟨hpt, hchr⟩ := hch
    simp only [bracketCumulative]
    rw [bracketCumulative_zero_of_le hchr hy,
      bracketCumulative_zero_of_le hchr (le_trans hxy hy)]
    rw [min_eq_left hy, min_eq_left (le_trans hxy hy)]
    rw [max_eq_right (by linarith), max_eq_right (by linarith)]
    ring
  | cons hd pre ih =>
    obtain ⟨t0, r0⟩ := hd
    simp only [List.cons_append, List.map_cons, List.chain_cons] at hch
    obtain ⟨hpt0, hchr⟩ := hch
    simp only [lastThreshold] at hx
    have ht0x : t0 ≤ x :=
      le_trans (le_trans (lastThreshold_ge t0 pre ((t, r) :: suf) hchr) hx) le_rfl
    simp only [List.cons_append, bracketCumulative]
    rw [min_eq_right (by linarith), min_eq_right (by linarith : t0 ≤ x)]
    have := ih t0 hchr hx
    simp only [List.append_eq] at this ⊢
    linarith

end TaxCalculator

open TaxCalculator

/-- C8: for every filing status, federal ordinary tax is monotonically
non-decreasing on taxable incomes `0 ≤ i1 ≤ i2`, and between two consecutive
bracket thresholds (the bracket list split as `pre ++ (t, r) :: suf`, the
lower threshold being the last threshold of `pre`) the tax is linear with
slope `r`. -/
theorem claim_C8_monotone_and_piecewise_linear (fs : FilingStatus) (i1 i2 : ℚ)
    (h0 : 0 ≤ i1) (h12 : i1 ≤ i2) :
    (calculate_federal_ordinary_tax i1 fs).1 ≤ (calculate_federal_ordinary_tax i2 fs).1 ∧
    (∀ pre t r suf, FEDERAL_BRACKETS fs = pre ++ (t, r) :: suf →
      lastThreshold 0 pre ≤ i1 → i2 ≤ t →
      (calculate_federal_ordinary_tax i2 fs).1 - (calculate_federal_ordinary_tax i1 fs).1
        = r * (i2 - i1)) := by
  constructor
  · rw [calculate_federal_ordinary_tax_eq i1 fs h0,
      calculate_federal_ordinary_tax_eq i2 fs (h0.trans h12)]
    exact bracketCumulative_mono _ 0 i1 i2 (fed_rates_nonneg fs) h12
  · intro pre t r suf heq hx hy
    rw [calculate_federal_ordinary_tax_eq i1 fs h0,
      calculate_federal_ordinary_tax_eq i2 fs (h0.trans h12), heq]
    have hch : List.Chain (· < ·) 0 ((pre ++ (t, r) :: suf).map Prod.fst) := by
      rw [← heq]; exact fed_chain fs
    exact bracketCumulative_linear pre t r suf 0 i1 i2 hch hx h12 hy

/-- C8 witness: Single filer, incomes 12000 and 40000 lie in the second
bracket (11925, 48475] with rate 12%; the tax is monotone between them and
the difference is exactly 12% of the income difference. -/
theorem claim_C8_monotone_and_piecewise_linear_witness :
    (calculate_federal_ordinary_tax 12000 .single).1
        ≤ (calculate_federal_ordinary_tax 40000 .single).1 ∧
    (calculate_federal_ordinary_tax 40000 .single).1
        - (calculate_federal_ordinary_tax 12000 .single).1
      = (12/100) * (40000 - 12000) := by
  have h := claim_C8_monotone_and_piecewise_linear .single 12000 40000
    (by norm_num) (by norm_num)
  refine ⟨h.1, h.2 [(11925, 10/100)] 48475 (12/100)
    [(103350, 22/100), (197300, 24/100), (250525, 32/100), (626350, 35/100),
     (999999999, 37/100)] rfl ?_ (by norm_num)⟩
  simp only [lastThreshold]
  norm_num

namespace TaxCalculator

/-- Convexity of `max 0 (· - s)`: the increment over a window of width `P`
is non-decreasing in the window position. -/
lemma max0_shift_mono (s O Op P : ℚ) (hP : 0 ≤ P) (hOO : O ≤ Op) :
    max 0 (O + P - s) - max 0 (O - s) ≤ max 0 (Op + P - s) - max 0 (Op - s) := by
  simp only [max_def]
  split_ifs <;> linarith

/-- Splitting the middle LTCG bracket term at its upper threshold. -/
lemma ltcg_mid_split (l1 l2 z : ℚ) (h12 : l1 ≤ l2) :
    max 0 (min z l2 - l1) = max 0 (z - l1) - max 0 (z - l2) := by
  simp only [min_def, max_def]
  split_ifs <;> linarith

/-- Shift monotonicity for a three-bracket LTCG cumulative with rates
0 / 15% / 20%, as long as the shifted window stays below the top sentinel
threshold. -/
lemma ltcg_cum_shift (l1 l2 O Op P : ℚ) (h12 : l1 ≤ l2)
    (h23 : l2 ≤ (999999999 : ℚ)) (hO : 0 ≤ O) (hOO : O ≤ Op) (hP : 0 ≤ P)
    (hcap : Op + P ≤ 999999999) :
    bracketCumulative [(l1, 0), (l2, 15/100), (999999999, 20/100)] 0 (O + P)
      - bracketCumulative [(l1, 0), (l2, 15/100), (999999999, 20/100)] 0 O
    ≤ bracketCumulative [(l1, 0), (l2, 15/100), (999999999, 20/100)] 0 (Op + P)
      - bracketCumulative [(l1, 0), (l2, 15/100), (999999999, 20/100)] 0 Op := by
  simp only [bracketCumulative, zero_mul, add_zero, zero_add]
  rw [min_eq_left (by linarith : O + P ≤ (999999999:ℚ)),
    min_eq_left (by linarith : O ≤ (999999999:ℚ)),
    min_eq_left (by linarith : Op + P ≤ (999999999:ℚ)),
    min_eq_left (by linarith : Op ≤ (999999999:ℚ))]
  rw [ltcg_mid_split l1 l2 (O + P) h12, ltcg_mid_split l1 l2 O h12,
    ltcg_mid_split l1 l2 (Op + P) h12, ltcg_mid_split l1 l2 Op h12]
  have d1 := max0_shift_mono l1 O Op P hP hOO
  have d2 := max0_shift_mono l2 O Op P hP hOO
  linarith

end TaxCalculator

/-- C5 counterexample: for Single, preferential amount 100 stacked on
ordinary income 48350 is taxed 15, but stacked on the larger ordinary income
999999999 it is taxed 0 (the stack has moved past the sentinel top
threshold), so the unrestricted monotonicity claim is false. -/
theorem claim_C5_counterexample_beyond_sentinel :
    calculate_federal_ltcg_tax 100 999999999 .single
      < calculate_federal_ltcg_tax 100 48350 .single := by
  norm_num [calculate_federal_ltcg_tax, ltcgBracketLoop, LTCG_BRACKETS]

/-- C5 (amended): stacking monotonicity holds whenever the shifted stack
stays within the bracket table, i.e. `O' + P ≤ 999999999` (the sentinel top
threshold): for fixed filing status and preferential amount `P ≥ 0`,
the preferential tax stacked on `O'` is at least the one stacked on `O`
for `0 ≤ O ≤ O'`. -/
theorem claim_C5_amended_stacking_monotone (fs : FilingStatus) (P O O' : ℚ)
    (hP : 0 ≤ P) (hO : 0 ≤ O) (hOO : O ≤ O') (hcap : O' + P ≤ 999999999) :
    calculate_federal_ltcg_tax P O fs ≤ calculate_federal_ltcg_tax P O' fs := by
  have hO' : 0 ≤ O' := hO.trans hOO
  rw [calculate_federal_ltcg_tax_eq P O fs hO hP,
    calculate_federal_ltcg_tax_eq P O' fs hO' hP]
  cases fs <;> simp only [LTCG_BRACKETS]
  · exact ltcg_cum_shift 48350 533400 O O' P (by norm_num) (by norm_num) hO hOO hP hcap
  · exact ltcg_cum_shift 96700 600050 O O' P (by norm_num) (by norm_num) hO hOO hP hcap
  · exact ltcg_cum_shift 48350 300025 O O' P (by norm_num) (by norm_num) hO hOO hP hcap
  · exact ltcg_cum_shift 64750 566700 O O' P (by norm_num) (by norm_num) hO hOO hP hcap
  · exact ltcg_cum_shift 96700 600050 O O' P (by norm_num) (by norm_num) hO hOO hP hcap

/-- C5 witness: Single, preferential 100 stacked on 48350 versus on 100000,
both within the bracket table. -/
theorem claim_C5_amended_stacking_monotone_witness :
    calculate_federal_ltcg_tax 100 48350 .single
      ≤ calculate_federal_ltcg_tax 100 100000 .single :=
  claim_C5_amended_stacking_monotone .single 100 48350 100000 (by norm_num)
    (by norm_num) (by norm_num) (by norm_num)

namespace TaxCalculator

/-- Difference of cumulative bracket terms as a window-overlap term. -/
lemma seg_sub (p t x y : ℚ) (hx : 0 ≤ x) (hxy : x ≤ y) (hp : 0 ≤ p) :
    max 0 (min y t - p) - max 0 (min x t - p) = max 0 (min y t - max x p) := by
  simp only [min_def, max_def]
  split_ifs <;> linarith

/-- Splitting a window-overlap term at an intermediate threshold. -/
lemma seg_split (p m t x y : ℚ) (hpm : p ≤ m) (hmt : m ≤ t) (hxy : x ≤ y) :
    max 0 (min y t - max x p)
      = max 0 (min y m - max x p) + max 0 (min y t - max x m) := by
  simp only [min_def, max_def]
  split_ifs <;> linarith

/-- The state-tax gain on an income increase covers 3% of the overlap of the
taxable-ordinary move with any window lying above the state deduction. -/
lemma state_gain_covers_window (ncd l1 f2 x x' tot tot' : ℚ)
    (hncd : 0 ≤ ncd) (hn1 : ncd ≤ l1) (hx : 0 ≤ x) (hxx : x ≤ x')
    (hxt : x' ≤ tot') (hdel : x' - x ≤ tot' - tot) :
    (3/100) * max 0 (min x' f2 - max x l1)
      ≤ max 0 (tot' - ncd) * NC_TAX_RATE - max 0 (tot - ncd) * NC_TAX_RATE := by
  rw [NC_TAX_RATE]
  simp only [min_def, max_def]
  split_ifs <;> linarith

/-- The federal-minus-LTCG cumulative (all five filing statuses share this
bracket-rate pattern) decreases at most at slope 3% and only inside the
window `(l1, f2]`. -/
lemma fed_minus_ltcg_window (f1 f2 f3 f4 f5 f6 f7 l1 l2 x y : ℚ)
    (h01 : 0 < f1) (h1l : f1 < l1) (hlf2 : l1 < f2) (h23 : f2 < f3)
    (h34 : f3 < f4) (h45 : f4 < f5) (h5l : f5 < l2) (hl6 : l2 < f6)
    (h67 : f6 < f7) (hx : 0 ≤ x) (hxy : x ≤ y) :
    -(3/100) * max 0 (min y f2 - max x l1)
      ≤ (bracketCumulative [(f1, 10/100), (f2, 12/100), (f3, 22/100), (f4, 24/100),
            (f5, 32/100), (f6, 35/100), (f7, 37/100)] 0 y
          - bracketCumulative [(l1, 0), (l2, 15/100), (f7, 20/100)] 0 y)
        - (bracketCumulative [(f1, 10/100), (f2, 12/100), (f3, 22/100), (f4, 24/100),
            (f5, 32/100), (f6, 35/100), (f7, 37/100)] 0 x
          - bracketCumulative [(l1, 0), (l2, 15/100), (f7, 20/100)] 0 x) := by
  simp only [bracketCumulative, zero_mul, add_zero, zero_add, sub_zero]
  have s0 := seg_sub 0 f1 x y hx hxy le_rfl
  simp only [sub_zero] at s0
  have s1 := seg_sub f1 f2 x y hx hxy (by linarith)
  have s2 := seg_sub f2 f3 x y hx hxy (by linarith)
  have s3 := seg_sub f3 f4 x y hx hxy (by linarith)
  have s4 := seg_sub f4 f5 x y hx hxy (by linarith)
  have s5 := seg_sub f5 f6 x y hx hxy (by linarith)
  have s6 := seg_sub f6 f7 x y hx hxy (by linarith)
  have sL1 := seg_sub l1 l2 x y hx hxy (by linarith)
  have sL2 := seg_sub l2 f7 x y hx hxy (by linarith)
  have sp1 := seg_split f1 l1 f2 x y (by linarith) (by linarith) hxy
  have sp2 := seg_split f5 l2 f6 x y (by linarith) (by linarith) hxy
  have spL1 := seg_split l1 f2 l2 x y (by linarith) (by linarith) hxy
  have spL1b := seg_split f2 f3 l2 x y (by linarith) (by linarith) hxy
  have spL1c := seg_split f3 f4 l2 x y (by linarith) (by linarith) hxy
  have spL1d := seg_split f4 f5 l2 x y (by linarith) (by linarith) hxy
  have spL2 := seg_split l2 f6 f7 x y (by linarith) (by linarith) hxy
  have n1 : (0:ℚ) ≤ max 0 (min y f1 - max x 0) := le_max_left _ _
  have n2 : (0:ℚ) ≤ max 0 (min y l1 - max x f1) := le_max_left _ _
  have n3 : (0:ℚ) ≤ max 0 (min y f3 - max x f2) := le_max_left _ _
  have n4 : (0:ℚ) ≤ max 0 (min y f4 - max x f3) := le_max_left _ _
  have n5 : (0:ℚ) ≤ max 0 (min y f5 - max x f4) := le_max_left _ _
  have n6 : (0:ℚ) ≤ max 0 (min y l2 - max x f5) := le_max_left _ _
  have n7 : (0:ℚ) ≤ max 0 (min y f6 - max x l2) := le_max_left _ _
  have n8 : (0:ℚ) ≤ max 0 (min y f7 - max x f6) := le_max_left _ _
  linarith

end TaxCalculator

namespace TaxCalculator

/-- Uniform closed form of the deduction split: for non-negative preferential
income the two buckets are `max 0 (o - d)` and the remainder up to
`max 0 (o + p - d)`. -/
lemma taxableParts_closed (o p d : ℚ) (hp : 0 ≤ p) :
    taxableParts o p d = (max 0 (o - d), max 0 (o + p - d) - max 0 (o - d)) := by
  simp only [taxableParts]
  rcases le_or_lt (o + p) d with h | h
  · rw [if_pos (max_eq_left (by linarith))]
    have e1 : max 0 (o + p - d) = 0 := max_eq_left (by linarith)
    have e2 : max 0 (o - d) = 0 := max_eq_left (by linarith)
    rw [e1, e2]
    norm_num
  · rw [if_neg]
    swap
    · rw [max_eq_right (by linarith : (0:ℚ) ≤ o + p - d)]
      intro hq
      linarith
    have e1 : max 0 (o + p - d) = o + p - d := max_eq_right (by linarith)
    rw [e1]
    rcases lt_or_le d o with h2 | h2
    · rw [if_pos h2]
      have e2 : max 0 (o - d) = o - d := max_eq_right (by linarith)
      rw [e2, Prod.mk.injEq]
      exact ⟨rfl, by ring⟩
    · rw [if_neg (not_lt.mpr h2)]
      have e2 : max 0 (o - d) = 0 := max_eq_left (by linarith)
      rw [e2, Prod.mk.injEq]
      refine ⟨rfl, ?_⟩
      rw [sub_zero, max_eq_right (by linarith : (0:ℚ) ≤ p - (d - o))]
      ring

/-- Closed form of the engine's total tax in terms of cumulative bracket
taxes: `F(x) - L(x) + L(z) + state`, where `x` is taxable ordinary income
and `z` total taxable income. -/
lemma total_tax_formula (stg ltg div intr add d : ℚ) (fs : FilingStatus)
    (w : ℚ) (pyt : Option ℚ) (hp : 0 ≤ ltg + div) :
    (calculate_taxes stg ltg div intr add fs (some d) w pyt).total_tax
      = bracketCumulative (FEDERAL_BRACKETS fs) 0 (max 0 (stg + intr + add - d))
        - bracketCumulative (LTCG_BRACKETS fs) 0 (max 0 (stg + intr + add - d))
        + bracketCumulative (LTCG_BRACKETS fs) 0
            (max 0 (stg + intr + add + (ltg + div) - d))
        + max 0 (stg + intr + add + (ltg + div) - NC_STANDARD_DEDUCTIONS fs)
            * NC_TAX_RATE := by
  simp only [calculate_taxes, calculate_nc_state_tax]
  rw [taxableParts_closed _ _ _ hp]
  dsimp only
  have hx0 : (0:ℚ) ≤ max 0 (stg + intr + add - d) := le_max_left _ _
  have hzx : max 0 (stg + intr + add - d)
      ≤ max 0 (stg + intr + add + (ltg + div) - d) :=
    max_le_max le_rfl (by linarith)
  rw [calculate_federal_ordinary_tax_eq _ fs hx0]
  rw [calculate_federal_ltcg_tax_eq _ _ fs hx0 (by linarith)]
  have harg : max 0 (stg + intr + add - d)
      + (max 0 (stg + intr + add + (ltg + div) - d) - max 0 (stg + intr + add - d))
      = max 0 (stg + intr + add + (ltg + div) - d) := by ring
  rw [harg]
  ring

/-- The resolved-deduction default: omitting the deduction equals passing
the standard deduction explicitly. -/
lemma calculate_taxes_default_deduction (stg ltg div intr add : ℚ)
    (fs : FilingStatus) (w : ℚ) (pyt : Option ℚ) :
    calculate_taxes stg ltg div intr add fs none w pyt
      = calculate_taxes stg ltg div intr add fs (some (STANDARD_DEDUCTIONS fs)) w pyt :=
  rfl

/-- Monotonicity of the closed-form total tax in the added ordinary income,
generic over the shared bracket pattern of all five filing statuses. -/
lemma total_closed_mono_generic (f1 f2 f3 f4 f5 f6 l1 l2 ncd o p dl d : ℚ)
    (h01 : 0 < f1) (h1l : f1 < l1) (hlf2 : l1 < f2) (h23 : f2 < f3)
    (h34 : f3 < f4) (h45 : f4 < f5) (h5l : f5 < l2) (hl6 : l2 < f6)
    (h67 : f6 < (999999999:ℚ)) (hncd : 0 ≤ ncd) (hn1 : ncd ≤ l1)
    (ho : 0 ≤ o) (hp : 0 ≤ p) (hdl : 0 ≤ dl) (hd : 0 ≤ d) :
    bracketCumulative [(f1, 10/100), (f2, 12/100), (f3, 22/100), (f4, 24/100),
        (f5, 32/100), (f6, 35/100), (999999999, 37/100)] 0 (max 0 (o - d))
      - bracketCumulative [(l1, 0), (l2, 15/100), (999999999, 20/100)] 0 (max 0 (o - d))
      + bracketCumulative [(l1, 0), (l2, 15/100), (999999999, 20/100)] 0 (max 0 (o + p - d))
      + max 0 (o + p - ncd) * NC_TAX_RATE
    ≤ bracketCumulative [(f1, 10/100), (f2, 12/100), (f3, 22/100), (f4, 24/100),
        (f5, 32/100), (f6, 35/100), (999999999, 37/100)] 0 (max 0 (o + dl - d))
      - bracketCumulative [(l1, 0), (l2, 15/100), (999999999, 20/100)] 0 (max 0 (o + dl - d))
      + bracketCumulative [(l1, 0), (l2, 15/100), (999999999, 20/100)] 0 (max 0 (o + p + dl - d))
      + max 0 (o + p + dl - ncd) * NC_TAX_RATE := by
  have hx0 : (0:ℚ) ≤ max 0 (o - d) := le_max_left _ _
  have hxx : max 0 (o - d) ≤ max 0 (o + dl - d) := max_le_max le_rfl (by linarith)
  have hzz : max 0 (o + p - d) ≤ max 0 (o + p + dl - d) := max_le_max le_rfl (by linarith)
  have hxt : max 0 (o + dl - d) ≤ o + p + dl := by
    apply max_le (by linarith) (by linarith)
  have hdel : max 0 (o + dl - d) - max 0 (o - d) ≤ dl := by
    simp only [max_def]
    split_ifs <;> linarith
  have hw := fed_minus_ltcg_window f1 f2 f3 f4 f5 f6 999999999 l1 l2
    (max 0 (o - d)) (max 0 (o + dl - d)) h01 h1l hlf2 h23 h34 h45 h5l hl6 h67 hx0 hxx
  have hs := state_gain_covers_window ncd l1 f2 (max 0 (o - d)) (max 0 (o + dl - d))
    (o + p) (o + p + dl) hncd hn1 hx0 hxx hxt (by linarith)
  have hrates : ∀ br ∈ [((l1:ℚ), (0:ℚ)), (l2, 15/100), (999999999, 20/100)], 0 ≤ br.2 := by
    intro br hbr
    simp only [List.mem_cons, List.not_mem_nil, or_false] at hbr
    rcases hbr with h | h | h <;> rw [h] <;> norm_num
  have hLz := bracketCumulative_mono
    [((l1:ℚ), (0:ℚ)), (l2, 15/100), (999999999, 20/100)] 0
    (max 0 (o + p - d)) (max 0 (o + p + dl - d)) hrates hzz
  linarith

end TaxCalculator

namespace TaxCalculator

lemma STANDARD_DEDUCTIONS_nonneg (fs : FilingStatus) : 0 ≤ STANDARD_DEDUCTIONS fs := by
  cases fs <;> norm_num [STANDARD_DEDUCTIONS]

/-- The engine's total tax (federal plus state) is monotone in additional
ordinary income, for non-negative incomes and a non-negative deduction. -/
lemma total_tax_mono_additional (fs : FilingStatus) (stg ltg div intr add dl d : ℚ)
    (h1 : 0 ≤ stg) (h2 : 0 ≤ ltg) (h3 : 0 ≤ div) (h4 : 0 ≤ intr) (h5 : 0 ≤ add)
    (hdl : 0 ≤ dl) (hd : 0 ≤ d) :
    (calculate_taxes stg ltg div intr add fs (some d) 0 none).total_tax
      ≤ (calculate_taxes stg ltg div intr (add + dl) fs (some d) 0 none).total_tax := by
  have hp : 0 ≤ ltg + div := by linarith
  rw [total_tax_formula stg ltg div intr add d fs 0 none hp,
    total_tax_formula stg ltg div intr (add + dl) d fs 0 none hp]
  have e1 : stg + intr + (add + dl) - d = stg + intr + add + dl - d := by ring
  have e2 : stg + intr + (add + dl) + (ltg + div) - d
      = stg + intr + add + (ltg + div) + dl - d := by ring
  have e3 : stg + intr + (add + dl) + (ltg + div) - NC_STANDARD_DEDUCTIONS fs
      = stg + intr + add + (ltg + div) + dl - NC_STANDARD_DEDUCTIONS fs := by ring
  rw [e1, e2, e3]
  have ho : 0 ≤ stg + intr + add := by linarith
  cases fs <;> simp only [FEDERAL_BRACKETS, LTCG_BRACKETS, NC_STANDARD_DEDUCTIONS]
  · exact total_closed_mono_generic 11925 48475 103350 197300 250525 626350
      48350 533400 12750 (stg + intr + add) (ltg + div) dl d
      (by norm_num) (by norm_num) (by norm_num) (by norm_num) (by norm_num)
      (by norm_num) (by norm_num) (by norm_num) (by norm_num) (by norm_num)
      (by norm_num) ho hp hdl hd
  · exact total_closed_mono_generic 23850 96950 206700 394600 501050 751600
      96700 600050 25500 (stg + intr + add) (ltg + div) dl d
      (by norm_num) (by norm_num) (by norm_num) (by norm_num) (by norm_num)
      (by norm_num) (by norm_num) (by norm_num) (by norm_num) (by norm_num)
      (by norm_num) ho hp hdl hd
  · exact total_closed_mono_generic 11925 48475 103350 197300 250525 375800
      48350 300025 12750 (stg + intr + add) (ltg + div) dl d
      (by norm_num) (by norm_num) (by norm_num) (by norm_num) (by norm_num)
      (by norm_num) (by norm_num) (by norm_num) (by norm_num) (by norm_num)
      (by norm_num) ho hp hdl hd
  · exact total_closed_mono_generic 17000 64850 103350 197300 250500 626350
      64750 566700 19125 (stg + intr + add) (ltg + div) dl d
      (by norm_num) (by norm_num) (by norm_num) (by norm_num) (by norm_num)
      (by norm_num) (by norm_num) (by norm_num) (by norm_num) (by norm_num)
      (by norm_num) ho hp hdl hd
  · exact total_closed_mono_generic 23850 96950 206700 394600 501050 751600
      96700 600050 25500 (stg + intr + add) (ltg + div) dl d
      (by norm_num) (by norm_num) (by norm_num) (by norm_num) (by norm_num)
      (by norm_num) (by norm_num) (by norm_num) (by norm_num) (by norm_num)
      (by norm_num) ho hp hdl hd

end TaxCalculator

/-- C3: whenever the Roth solver returns a suggestion (the current tax result
having been produced by the engine on the same inputs), `conversion_tax` is
exactly `new_total_tax - current_total_tax`, where both totals are the
engine's combined federal-plus-state `total_tax` and the new total comes from
re-invoking the engine with `additional_income` increased by
`suggested_conversion` and everything else (deduction basis included)
unchanged; and for non-negative income inputs (and deduction) this
conversion tax is non-negative. -/
theorem claim_C3_conversion_tax_delta_and_nonneg
    (stg ltg div intr add c t : ℚ) (fs : FilingStatus) (dopt : Option ℚ)
    (cur : TaxResult) (s : RothConversionSuggestion)
    (hcur : cur = calculate_taxes stg ltg div intr add fs dopt 0 none)
    (hres : analyze_roth_opportunity c (some t) stg ltg div intr add fs cur dopt
        = some s)
    (h1 : 0 ≤ stg) (h2 : 0 ≤ ltg) (h3 : 0 ≤ div) (h4 : 0 ≤ intr) (h5 : 0 ≤ add)
    (hd : ∀ v ∈ dopt, 0 ≤ v) :
    s.conversion_tax = s.new_total_tax - s.current_total_tax ∧
    s.current_total_tax
        = (calculate_taxes stg ltg div intr add fs dopt 0 none).total_tax ∧
    s.new_total_tax
        = (calculate_taxes stg ltg div intr (add + s.suggested_conversion)
            fs dopt 0 none).total_tax ∧
    0 ≤ s.conversion_tax := by
  simp only [analyze_roth_opportunity] at hres
  split_ifs at hres with hguard
  push_neg at hguard
  obtain ⟨ht0, htc⟩ := hguard
  rw [Option.some_inj] at hres
  subst hres
  refine ⟨rfl, by rw [hcur], rfl, ?_⟩
  show 0 ≤ (calculate_taxes stg ltg div intr (add + (t - c)) fs dopt 0 none).total_tax
    - cur.total_tax
  -- the conversion is the positive gap between target and current MAGI
  rw [hcur, sub_nonneg]
  have hdl : 0 ≤ t - c := by linarith
  rcases dopt with _ | dv
  · rw [calculate_taxes_default_deduction stg ltg div intr add fs 0 none,
      calculate_taxes_default_deduction stg ltg div intr (add + (t - c)) fs 0 none]
    exact total_tax_mono_additional fs stg ltg div intr add (t - c)
      (STANDARD_DEDUCTIONS fs) h1 h2 h3 h4 h5 hdl (STANDARD_DEDUCTIONS_nonneg fs)
  · exact total_tax_mono_additional fs stg ltg div intr add (t - c) dv
      h1 h2 h3 h4 h5 hdl (hd dv rfl)

/-- C3 witness: the spec's Roth scenario (current MAGI 30000, target 50000,
Single, additional income 30000, default deduction): the suggestion converts
20000, and its conversion tax 3350 equals the total-tax delta and is
non-negative. -/
theorem claim_C3_conversion_tax_delta_and_nonneg_witness :
    analyze_roth_opportunity 30000 (some 50000) 0 0 0 0 30000 .single
      (calculate_taxes 0 0 0 0 30000 .single none 0 none) none
    = some ⟨true, 30000, 50000, 20000, 3350, 19047/8, 45847/8, 67/4, 3123/2,
        7923/2, 6555/8, 14155/8⟩ ∧
    (0:ℚ) ≤ (RothConversionSuggestion.mk true 30000 50000 20000 3350 (19047/8)
        (45847/8) (67/4) (3123/2) (7923/2) (6555/8) (14155/8)).conversion_tax := by
  have hres : analyze_roth_opportunity 30000 (some 50000) 0 0 0 0 30000 .single
      (calculate_taxes 0 0 0 0 30000 .single none 0 none) none
      = some ⟨true, 30000, 50000, 20000, 3350, 19047/8, 45847/8, 67/4, 3123/2,
          7923/2, 6555/8, 14155/8⟩ := by
    norm_num [analyze_roth_opportunity, calculate_taxes, calculate_federal_ordinary_tax,
      fedBracketLoop, FEDERAL_BRACKETS, calculate_federal_ltcg_tax, ltcgBracketLoop,
      LTCG_BRACKETS, STANDARD_DEDUCTIONS, calculate_nc_state_tax, NC_STANDARD_DEDUCTIONS,
      NC_TAX_RATE, taxableParts, rothMarginalRate, min_def, max_def]
  refine ⟨hres, ?_⟩
  exact (claim_C3_conversion_tax_delta_and_nonneg 0 0 0 0 30000 30000 50000 .single
    none (calculate_taxes 0 0 0 0 30000 .single none 0 none) _ rfl hres
    (by norm_num) (by norm_num) (by norm_num) (by norm_num) (by norm_num)
    (by intro v hv; simp at hv)).2.2.2
